import Mathlib
set_option maxRecDepth 100000
/-!
Verification of the HTLC swap orchestration core of the UniteDefi2025
repository (src/LN/btc_swap.py, with the hash-verification helper from
src/LN/pay_carol_to_alice.py).

The Python code is shallowly embedded: bytes are `List Nat` (each < 256),
machine-level SHA-256 words are `Nat` reduced mod 2^32, the in-memory swap
dictionary `self.swaps` is an association list `Store`, wall-clock reads
within one call are a single `now : Int` parameter, and the Lightning node
REST responses are explicit `Except`/structure parameters (the adapter is
an external collaborator).  Fallible Python code (raise) returns `Except`.
-/
/-! ## SHA-256 (hashlib.sha256), executable over byte lists -/
def m32 : Nat := 4294967296
def add32 (a b : Nat) : Nat := (a + b) % m32
def rotr32 (n x : Nat) : Nat := ((x >>> n) ||| (x <<< (32 - n))) % m32
def not32 (x : Nat) : Nat := Nat.xor x 4294967295
def shaCh (e f g : Nat) : Nat := Nat.xor (Nat.land e f) (Nat.land (not32 e) g)
def shaMaj (a b c : Nat) : Nat :=
  Nat.xor (Nat.xor (Nat.land a b) (Nat.land a c)) (Nat.land b c)
def bigSigma0 (x : Nat) : Nat := Nat.xor (Nat.xor (rotr32 2 x) (rotr32 13 x)) (rotr32 22 x)
def bigSigma1 (x : Nat) : Nat := Nat.xor (Nat.xor (rotr32 6 x) (rotr32 11 x)) (rotr32 25 x)
def smallSigma0 (x : Nat) : Nat := Nat.xor (Nat.xor (rotr32 7 x) (rotr32 18 x)) (x >>> 3)
def smallSigma1 (x : Nat) : Nat := Nat.xor (Nat.xor (rotr32 17 x) (rotr32 19 x)) (x >>> 10)
/-- The eight working variables of the SHA-256 compression function. -/
structure Hash8 where
  a : Nat
  b : Nat
  c : Nat
  d : Nat
  e : Nat
  f : Nat
  g : Nat
  h : Nat
deriving DecidableEq
def sha256Init : Hash8 :=
  ⟨1779033703, 3144134277, 1013904242, 2773480762,
   1359893119, 2600822924, 528734635, 1541459225⟩
def sha256K : List Nat :=
  [1116352408, 1899447441, 3049323471, 3921009573, 961987163,
   1508970993, 2453635748, 2870763221, 3624381080, 310598401,
   607225278, 1426881987, 1925078388, 2162078206, 2614888103,
   3248222580, 3835390401, 4022224774, 264347078, 604807628,
   770255983, 1249150122, 1555081692, 1996064986, 2554220882,
   2821834349, 2952996808, 3210313671, 3336571891, 3584528711,
   113926993, 338241895, 666307205, 773529912, 1294757372,
   1396182291, 1695183700, 1986661051, 2177026350, 2456956037,
   2730485921, 2820302411, 3259730800, 3345764771, 3516065817,
   3600352804, 4094571909, 275423344, 430227734, 506948616,
   659060556, 883997877, 958139571, 1322822218, 1537002063,
   1747873779, 1955562222, 2024104815, 2227730452, 2361852424,
   2428436474, 2756734187, 3204031479, 3329325298]
def compressRound (st : Hash8) (kw : Nat × Nat) : Hash8 :=
  let t1 := (st.h + bigSigma1 st.e + shaCh st.e st.f st.g + kw.1 + kw.2) % m32
  let t2 := (bigSigma0 st.a + shaMaj st.a st.b st.c) % m32
  ⟨(t1 + t2) % m32, st.a, st.b, st.c, (st.d + t1) % m32, st.e, st.f, st.g⟩
def compressList : List (Nat × Nat) → Hash8 → Hash8
  | [], st => st
  | kw :: rest, st => compressList rest (compressRound st kw)
/-- One step of the message-schedule extension, on the reversed schedule
(most recent word first). -/
def schedNext (rw : List Nat) : Nat :=
  (smallSigma1 (rw.getD 1 0) + rw.getD 6 0 + smallSigma0 (rw.getD 14 0) + rw.getD 15 0) % m32
def schedExtend : Nat → List Nat → List Nat
  | 0, rw => rw
  | n + 1, rw => schedExtend n (schedNext rw :: rw)
def schedule (block : List Nat) : List Nat := (schedExtend 48 block.reverse).reverse
def addHash8 (x y : Hash8) : Hash8 :=
  ⟨(x.a + y.a) % m32, (x.b + y.b) % m32, (x.c + y.c) % m32, (x.d + y.d) % m32,
   (x.e + y.e) % m32, (x.f + y.f) % m32, (x.g + y.g) % m32, (x.h + y.h) % m32⟩
def processBlock (st : Hash8) (block : List Nat) : Hash8 :=
  addHash8 st (compressList (List.zip sha256K (schedule block)) st)
def processBlocks : List (List Nat) → Hash8 → Hash8
  | [], st => st
  | b :: bs, st => processBlocks bs (processBlock st b)
/-- `count` big-endian bytes of `n`. -/
def natToBytesBE : Nat → Nat → List Nat
  | 0, _ => []
  | c + 1, n => natToBytesBE c (n / 256) ++ [n % 256]
def sha256Pad (msg : List Nat) : List Nat :=
  let L := msg.length
  let k := (64 - ((L + 9) % 64)) % 64
  msg ++ [128] ++ List.replicate k 0 ++ natToBytesBE 8 (8 * L)
def bytesToWords : List Nat → List Nat
  | b0 :: b1 :: b2 :: b3 :: rest => (((b0 * 256 + b1) * 256 + b2) * 256 + b3) :: bytesToWords rest
  | _ => []
def toBlocks : Nat → List Nat → List (List Nat)
  | 0, _ => []
  | _, [] => []
  | fuel + 1, w :: ws => ((w :: ws).take 16) :: toBlocks fuel ((w :: ws).drop 16)
def hash8Words (st : Hash8) : List Nat := [st.a, st.b, st.c, st.d, st.e, st.f, st.g, st.h]
/-- SHA-256 digest (32 bytes) of a byte string, per FIPS 180-4. -/
def sha256Bytes (msg : List Nat) : List Nat :=
  let ws := bytesToWords (sha256Pad msg)
  ((hash8Words (processBlocks (toBlocks ws.length ws) sha256Init)).map (natToBytesBE 4)).flatten
/-! ## Hex and base64 encodings, string bytes -/
def hexDigitChar (n : Nat) : Char := if n < 10 then Char.ofNat (48 + n) else Char.ofNat (87 + n)
def hexEncodeChars : List Nat → List Char
  | [] => []
  | b :: rest => hexDigitChar (b / 16 % 16) :: hexDigitChar (b % 16) :: hexEncodeChars rest
/-- Lowercase hex representation of a byte string (Python `bytes.hex()` /
the format produced by `secrets.token_hex`). -/
def hexEncode (bs : List Nat) : String := String.mk (hexEncodeChars bs)
/-- The digest as `hashlib.sha256(...).hexdigest()` returns it. -/
def sha256Hex (msg : List Nat) : String := hexEncode (sha256Bytes msg)
/-- The byte values of an ASCII string (Python `str.encode()`). -/
def strBytes (s : String) : List Nat := s.data.map Char.toNat
def hexDigitVal (c : Char) : Option Nat :=
  if 48 ≤ c.toNat ∧ c.toNat ≤ 57 then some (c.toNat - 48)
  else if 97 ≤ c.toNat ∧ c.toNat ≤ 102 then some (c.toNat - 87)
  else if 65 ≤ c.toNat ∧ c.toNat ≤ 70 then some (c.toNat - 55)
  else none
def hexDecodeChars : List Char → Option (List Nat)
  | [] => some []
  | [_] => none
  | c1 :: c2 :: rest =>
    match hexDigitVal c1, hexDigitVal c2, hexDecodeChars rest with
    | some h, some l, some bs => some ((h * 16 + l) :: bs)
    | _, _, _ => none
/-- Python `bytes.fromhex`: `none` models the `ValueError` on malformed hex. -/
def hexDecode (s : String) : Option (List Nat) := hexDecodeChars s.data
def b64Char (n : Nat) : Char :=
  if n < 26 then Char.ofNat (65 + n)
  else if n < 52 then Char.ofNat (97 + (n - 26))
  else if n < 62 then Char.ofNat (48 + (n - 52))
  else if n = 62 then Char.ofNat 43
  else Char.ofNat 47
def b64EncodeChars : List Nat → List Char
  | [] => []
  | [b0] =>
    [b64Char (b0 / 4), b64Char (b0 % 4 * 16), Char.ofNat 61, Char.ofNat 61]
  | [b0, b1] =>
    [b64Char (b0 / 4), b64Char (b0 % 4 * 16 + b1 / 16), b64Char (b1 % 16 * 4), Char.ofNat 61]
  | b0 :: b1 :: b2 :: rest =>
    b64Char (b0 / 4) :: b64Char (b0 % 4 * 16 + b1 / 16) ::
    b64Char (b1 % 16 * 4 + b2 / 64) :: b64Char (b2 % 64) :: b64EncodeChars rest
/-- Standard base64 with padding (Python `base64.b64encode`). -/
def base64Encode (bs : List Nat) : String := String.mk (b64EncodeChars bs)
/-! ## Data model (SwapOrder dataclass, swap store) -/
/-- The `SwapOrder` dataclass of `btc_swap.py`.  Statuses are the strings
`pending`, `executing`, `completed`, `failed`, `expired`. -/
structure SwapOrder where
  swap_id : String
  from_node : String
  to_node : String
  amount_sats : Int
  secret : String
  hash_lock : String
  expiry_time : Int
  status : String
  created_at : Int
  invoice : Option String
  payment_hash : Option String
deriving DecidableEq
/-- The in-memory dictionary `self.swaps`, as an association list in
insertion order (Python dicts preserve insertion order, keys unique). -/
abbrev Store := List (String × SwapOrder)
/-- `self.swaps.get(id)` / `id in self.swaps` membership: first entry wins. -/
def lookupSwap : Store → String → Option SwapOrder
  | [], _ => none
  | (k, v) :: rest, id => if k = id then some v else lookupSwap rest id
/-- `self.swaps[id] = sw`: replace in place when the key exists, else append. -/
def setSwap : Store → String → SwapOrder → Store
  | [], id, sw => [(id, sw)]
  | (k, v) :: rest, id, sw => if k = id then (id, sw) :: rest else (k, v) :: setSwap rest id sw
/-- Keys of the store are pairwise distinct (always true of a Python dict). -/
def keysUnique (store : Store) : Prop := store.Pairwise (fun p q => p.1 ≠ q.1)
/-- Truthiness of `response.get(key)` for an optional string field: Python
treats a missing key (`None`) and the empty string as falsy. -/
def pyTruthyStr : Option String → Bool
  | none => false
  | some s => !(s == "")
/-! ## External-collaborator response shapes (Lightning node REST) -/
/-- Fields read from a `POST /v1/invoices` response via `response.get`. -/
structure InvoiceResponse where
  payment_request : Option String
  r_hash : Option String
deriving DecidableEq
/-- Fields read from a `POST /v1/channels/transactions` response. -/
structure PayResponse where
  payment_error : Option String
  payment_preimage : Option String
deriving DecidableEq
/-! ## Orchestrator operations (LightningNetworkSwap methods) -/
/-- `generate_htlc_secret`, applied to the 32 random bytes drawn by
`secrets.token_hex(32)`: the secret is their lowercase-hex string, and the
hash lock is the SHA-256 hexdigest of that string's ASCII encoding. -/
def generate_htlc_secret (entropy : List Nat) : String × String :=
  let secret := hexEncode entropy
  (secret, sha256Hex (strBytes secret))
/-- The f-string id `swap_{int(time.time())}_{secrets.token_hex(4)}`. -/
def swapIdString (now : Int) (rand4 : String) : String :=
  "swap_" ++ toString now ++ "_" ++ rand4
/-- The `r_preimage` field of the invoice request:
`base64.b64encode(bytes.fromhex(secret)).decode()`. -/
def invoiceRPreimage (secret : String) : String :=
  base64Encode ((hexDecode secret).getD [])
/-- The `SwapOrder(...)` literal built inside `create_swap` (before the
invoice attempt mutates it). -/
def newSwapBase (from_node to_node : String) (amount_sats expiry_minutes now : Int)
    (entropy : List Nat) (rand4 : String) : SwapOrder :=
  { swap_id := swapIdString now rand4, from_node := from_node, to_node := to_node,
    amount_sats := amount_sats, secret := (generate_htlc_secret entropy).1,
    hash_lock := (generate_htlc_secret entropy).2,
    expiry_time := now + expiry_minutes * 60, status := "pending",
    created_at := now, invoice := none, payment_hash := none }
/-- The swap record as it stands after `create_swap`'s try/except around
invoice creation: success records `invoice`/`payment_hash` and moves to
`executing`, the caught exception moves to `failed`. -/
def createdSwap (from_node to_node : String) (amount_sats expiry_minutes now : Int)
    (entropy : List Nat) (rand4 : String) (inv : Except String InvoiceResponse) :
    SwapOrder :=
  match inv with
  | Except.ok resp =>
    { newSwapBase from_node to_node amount_sats expiry_minutes now entropy rand4 with
      invoice := resp.payment_request, payment_hash := resp.r_hash,
      status := "executing" }
  | Except.error _ =>
    { newSwapBase from_node to_node amount_sats expiry_minutes now entropy rand4 with
      status := "failed" }
/-- `create_swap`.  The clock reads inside the call are modelled as the one
instant `now`; `entropy`/`rand4` are the values drawn from `secrets`; `inv`
is the node's invoice-creation outcome (`Except.error` models the caught
exception branch).  A `ValueError` for an unknown alias is `Except.error`. -/
def create_swap (nodes : List String) (store : Store) (from_node to_node : String)
    (amount_sats expiry_minutes now : Int) (entropy : List Nat) (rand4 : String)
    (inv : Except String InvoiceResponse) : Except String (SwapOrder × Store) :=
  if from_node ∈ nodes then
    if to_node ∈ nodes then
      let swap := createdSwap from_node to_node amount_sats expiry_minutes now entropy rand4 inv
      Except.ok (swap, setSwap store (swapIdString now rand4) swap)
    else Except.error ("To node " ++ to_node ++ " not found")
  else Except.error ("From node " ++ from_node ++ " not found")
/-- `execute_swap`.  `resp` is the payment attempt's outcome
(`Except.error` models an exception from the request, which the method
catches).  The `Except String Bool` result separates raised `ValueError`s
(`error`) from the returned boolean (`ok`). -/
def execute_swap (store : Store) (swap_id : String) (now : Int)
    (resp : Except String PayResponse) : Except String Bool × Store :=
  match lookupSwap store swap_id with
  | none => (Except.error ("Swap " ++ swap_id ++ " not found"), store)
  | some swap =>
    if swap.status ≠ "executing" then
      (Except.error ("Swap " ++ swap_id ++ " is not in executable state"), store)
    else if swap.expiry_time < now then
      (Except.error ("Swap " ++ swap_id ++ " has expired"),
       setSwap store swap_id { swap with status := "expired" })
    else
      match resp with
      | Except.error _ =>
        (Except.ok false, setSwap store swap_id { swap with status := "failed" })
      | Except.ok r =>
        if pyTruthyStr r.payment_error then
          (Except.ok false, setSwap store swap_id { swap with status := "failed" })
        else
          (Except.ok true, setSwap store swap_id { swap with status := "completed" })
/-- `get_swap_status`: `self.swaps.get(swap_id)`. -/
def get_swap_status (store : Store) (swap_id : String) : Option SwapOrder :=
  lookupSwap store swap_id
/-- The sweep condition `current_time > swap.expiry_time and
swap.status == "pending"`. -/
def pendingExpired (now : Int) (sw : SwapOrder) : Bool :=
  decide (sw.expiry_time < now) && decide (sw.status = "pending")
/-- First phase of `cleanup_expired_swaps`: the comprehension collecting
the ids of pending swaps whose expiry has passed. -/
def expiredIds (now : Int) (store : Store) : List String :=
  (store.filter (fun p => pendingExpired now p.2)).map Prod.fst
/-- `self.swaps[swap_id].status = "expired"` for one id. -/
def markExpired (store : Store) (id : String) : Store :=
  store.map (fun p => if p.1 = id then (p.1, { p.2 with status := "expired" }) else p)
/-- `cleanup_expired_swaps`: collect, then mark each collected id. -/
def cleanup_expired_swaps (store : Store) (now : Int) : Store :=
  (expiredIds now store).foldl markExpired store
/-- `verify_htlc_hash` from `pay_carol_to_alice.py`: SHA-256 of the raw
secret bytes, base64-compared against the expected hash; the exception
branch (malformed hex) yields `verified := false`. -/
structure VerifyResult where
  verified : Bool
  calculated_hash_base64 : String
  expected_hash_base64 : String
  secret_hex : String
  secret_length_bytes : Nat
deriving DecidableEq
def verify_htlc_hash (secret_hex expected_hash_base64 : String) : VerifyResult :=
  match hexDecode secret_hex with
  | some secret_bytes =>
    let calculated := base64Encode (sha256Bytes secret_bytes)
    { verified := calculated == expected_hash_base64,
      calculated_hash_base64 := calculated,
      expected_hash_base64 := expected_hash_base64,
      secret_hex := secret_hex,
      secret_length_bytes := secret_bytes.length }
  | none =>
    { verified := false, calculated_hash_base64 := "",
      expected_hash_base64 := expected_hash_base64,
      secret_hex := secret_hex, secret_length_bytes := 0 }
/-! ## Operation sequences over the store -/
/-- One orchestrator operation, with the environment inputs (clock,
randomness, node responses) it consumes. -/
inductive SwapOp where
  | create (nodes : List String) (from_node to_node : String)
      (amount_sats expiry_minutes now : Int) (entropy : List Nat) (rand4 : String)
      (inv : Except String InvoiceResponse)
  | execute (swap_id : String) (now : Int) (resp : Except String PayResponse)
  | sweep (now : Int)
/-- Effect of one operation on the store (a raised `ValueError` leaves the
store as it was). -/
def applyOp (op : SwapOp) (store : Store) : Store :=
  match op with
  | .create nodes f t a m now e r4 inv =>
    match create_swap nodes store f t a m now e r4 inv with
    | Except.ok pr => pr.2
    | Except.error _ => store
  | .execute id now resp => (execute_swap store id now resp).2
  | .sweep now => cleanup_expired_swaps store now
def applyOps (ops : List SwapOp) (store : Store) : Store :=
  ops.foldl (fun s op => applyOp op s) store
/-- A create uses a fresh `swap_id` (guaranteed in the source by the
time-based + random id; with a colliding id the dict assignment would
overwrite the old record). -/
def createFresh : SwapOp → Store → Prop
  | .create _ _ _ _ _ now _ r4 _, store => lookupSwap store (swapIdString now r4) = none
  | _, _ => True
def freshAlong : List SwapOp → Store → Prop
  | [], _ => True
  | op :: rest, store => createFresh op store ∧ freshAlong rest (applyOp op store)
/-- Terminal statuses of the §4.3 state machine. -/
def isTerminal (st : String) : Prop := st = "completed" ∨ st = "failed" ∨ st = "expired"
/-- The edges of the status chain `pending → executing → {completed,
failed, expired}` (monotone reading: a status may also skip forward, as
the spec itself has `pending → failed` on invoice failure and
`pending → expired` in the sweep). -/
def statusEdge (a b : String) : Prop :=
  (a = "pending" ∧ (b = "executing" ∨ b = "completed" ∨ b = "failed" ∨ b = "expired")) ∨
  (a = "executing" ∧ (b = "completed" ∨ b = "failed" ∨ b = "expired"))
/-! ## Sweep (cleanup) machinery -/
/-- The pointwise effect of the sweep on one stored entry, given the
collected id list. -/
def expireEntry (ids : List String) (p : String × SwapOrder) : String × SwapOrder :=
  if p.1 ∈ ids then (p.1, { p.2 with status := "expired" }) else p
/-- Looking up a key after the sweep: the first matching entry is the
image of the first matching entry before the sweep. -/
def lookupPair : Store → String → Option (String × SwapOrder)
  | [], _ => none
  | p :: rest, id => if p.1 = id then some p else lookupPair rest id
/-! ## create_swap convenience lemmas -/
deriving instance DecidableEq for Except
/-! ## Concrete inputs used to exercise the theorems -/
def zeroEntropy : List Nat := List.replicate 32 0
def sampleEntropy : List Nat := List.range 32
def c8Inv : Except String InvoiceResponse :=
  Except.ok { payment_request := some "lnbc", r_hash := some "rh" }
def c3Swap : SwapOrder :=
  { swap_id := "swap_10_aa", from_node := "alice", to_node := "carol",
    amount_sats := 700, secret := "00", hash_lock := "hl",
    expiry_time := 100, status := "executing", created_at := 10,
    invoice := some "lnbc700", payment_hash := some "ph" }
def c7Swap : SwapOrder :=
  { swap_id := "swap_10_bb", from_node := "carol", to_node := "alice",
    amount_sats := 1200, secret := "11", hash_lock := "hl2",
    expiry_time := 50, status := "pending", created_at := 10,
    invoice := none, payment_hash := none }
def emptyPay : PayResponse := { payment_error := none, payment_preimage := none }
def c2Swap : SwapOrder :=
  { swap_id := "swap_1_cc", from_node := "alice", to_node := "carol",
    amount_sats := 400, secret := "22", hash_lock := "hl3",
    expiry_time := 500, status := "completed", created_at := 1,
    invoice := some "lnbc400", payment_hash := some "ph3" }
def c2Store : Store := [("swap_1_cc", c2Swap)]
def c2Ops : List SwapOp :=
  [SwapOp.sweep 900,
   SwapOp.execute "swap_1_cc" 900 (Except.ok emptyPay)]
def c4Swap : SwapOrder :=
  { swap_id := "swap_1000_ab12", from_node := "alice", to_node := "carol",
    amount_sats := 5000, secret := hexEncode sampleEntropy,
    hash_lock := sha256Hex (strBytes (hexEncode sampleEntropy)),
    expiry_time := 2800, status := "executing", created_at := 1000,
    invoice := some "lnbc5000", payment_hash := some "rhash" }
def c4Resp : PayResponse :=
  { payment_error := none, payment_preimage := some (base64Encode sampleEntropy) }
def c6Swap : SwapOrder :=
  { swap_id := "swap_2000_cd34", from_node := "alice", to_node := "carol",
    amount_sats := 1000, secret := "ab", hash_lock := "hl4",
    expiry_time := 3000, status := "executing", created_at := 2000,
    invoice := some "lnbc1000", payment_hash := some "ph4" }
def c6Resp : PayResponse := { payment_error := some "", payment_preimage := none }
def c6RespErr : PayResponse :=
  { payment_error := some "no route", payment_preimage := none }
theorem sha256_vector_empty : sha256Hex [] = "e3b0c44298fc1c149afbf4c8996fb92427ae41e4649b934ca495991b7852b855" := by decide
theorem sha256_vector_abc : sha256Hex (strBytes "abc") =
    "ba7816bf8f01cfea414140de5dae2223b00361a396177a9cb410ff61f20015ad" := by decide
theorem base64_sha256_vector : base64Encode (sha256Bytes (List.range 32)) =
    "Yw3NKWbEM2aRElRIu7JbT/QSpJxzLbLIq8G4WBvXEN0=" := by decide
theorem hexEncode_vector : hexEncode (List.range 32) =
    "000102030405060708090a0b0c0d0e0f101112131415161718191a1b1c1d1e1f" := by decide
/-! ## Store lemmas -/
theorem lookup_setSwap_self (s : Store) (id : String) (sw : SwapOrder) :
    lookupSwap (setSwap s id sw) id = some sw := by
  induction s with
  | nil => simp [setSwap, lookupSwap]
  | cons p rest ih =>
    obtain ⟨k, v⟩ := p
    by_cases h : k = id
    · simp [setSwap, h, lookupSwap]
    · simp [setSwap, h, lookupSwap, ih]
theorem lookup_setSwap_ne (s : Store) (id id2 : String) (sw : SwapOrder) (h : id2 ≠ id) :
    lookupSwap (setSwap s id sw) id2 = lookupSwap s id2 := by
  have hid : id ≠ id2 := fun hh => h hh.symm
  induction s with
  | nil => simp [setSwap, lookupSwap, hid]
  | cons p rest ih =>
    obtain ⟨k, v⟩ := p
    by_cases hk : k = id
    · have hkid2 : k ≠ id2 := by rw [hk]; exact hid
      simp [setSwap, hk, lookupSwap, hid, hkid2]
    · by_cases hk2 : k = id2 <;> simp [setSwap, hk, lookupSwap, hk2, ih, h]
theorem mem_of_lookupSwap {s : Store} {id : String} {v : SwapOrder}
    (h : lookupSwap s id = some v) : (id, v) ∈ s := by
  induction s with
  | nil => simp [lookupSwap] at h
  | cons p rest ih =>
    obtain ⟨k, w⟩ := p
    by_cases hk : k = id
    · subst hk
      simp [lookupSwap] at h
      subst h
      exact List.mem_cons_self _ _
    · simp [lookupSwap, hk] at h
      exact List.mem_cons_of_mem _ (ih h)
theorem lookupSwap_of_mem {s : Store} (hu : keysUnique s) {id : String} {v : SwapOrder}
    (h : (id, v) ∈ s) : lookupSwap s id = some v := by
  induction s with
  | nil => simp at h
  | cons p rest ih =>
    obtain ⟨k, w⟩ := p
    rw [keysUnique, List.pairwise_cons] at hu
    rcases List.mem_cons.1 h with heq | hmem
    · injection heq with h1 h2
      subst h1
      subst h2
      simp [lookupSwap]
    · have hk : k ≠ id := hu.1 (id, v) hmem
      simp [lookupSwap, hk]
      exact ih hu.2 hmem
theorem expireEntry_fst (ids : List String) (p : String × SwapOrder) :
    (expireEntry ids p).1 = p.1 := by
  unfold expireEntry
  split <;> rfl
theorem expireEntry_step (i : String) (ids : List String) (p : String × SwapOrder) :
    expireEntry ids (if p.1 = i then (p.1, { p.2 with status := "expired" }) else p) =
      expireEntry (i :: ids) p := by
  by_cases h1 : p.1 = i
  · by_cases h2 : p.1 ∈ ids <;> simp [expireEntry, h1, h2]
  · by_cases h2 : p.1 ∈ ids <;> simp [expireEntry, h1, h2]
theorem foldl_markExpired (ids : List String) (s : Store) :
    ids.foldl markExpired s = s.map (expireEntry ids) := by
  induction ids generalizing s with
  | nil =>
    have hfun : expireEntry ([] : List String) = id := by
      funext p
      simp [expireEntry]
    rw [List.foldl_nil, hfun, List.map_id]
  | cons i ids ih =>
    rw [List.foldl_cons, ih, markExpired, List.map_map]
    apply List.map_congr_left
    intro p _
    exact expireEntry_step i ids p
theorem cleanup_eq_map (s : Store) (now : Int) :
    cleanup_expired_swaps s now = s.map (expireEntry (expiredIds now s)) :=
  foldl_markExpired _ _
theorem mem_expiredIds {now : Int} {s : Store} {id : String} :
    id ∈ expiredIds now s ↔ ∃ w, (id, w) ∈ s ∧ pendingExpired now w = true := by
  unfold expiredIds
  rw [List.mem_map]
  constructor
  · rintro ⟨p, hp, rfl⟩
    rw [List.mem_filter] at hp
    exact ⟨p.2, hp.1, hp.2⟩
  · rintro ⟨w, hmem, hpred⟩
    exact ⟨(id, w), List.mem_filter.2 ⟨hmem, hpred⟩, rfl⟩
theorem pendingExpired_iff (now : Int) (sw : SwapOrder) :
    pendingExpired now sw = true ↔ sw.expiry_time < now ∧ sw.status = "pending" := by
  simp [pendingExpired]
theorem pendingExpired_expire (now : Int) (sw : SwapOrder) :
    pendingExpired now { sw with status := "expired" } = false := by
  simp [pendingExpired]
theorem expiredIds_cleanup (s : Store) (now : Int) :
    expiredIds now (cleanup_expired_swaps s now) = [] := by
  have hfil : (cleanup_expired_swaps s now).filter (fun p => pendingExpired now p.2) = [] := by
    rw [cleanup_eq_map, List.filter_eq_nil_iff]
    intro p hp
    rcases List.mem_map.1 hp with ⟨q, hq, rfl⟩
    by_cases hin : q.1 ∈ expiredIds now s
    · simp [expireEntry, hin, pendingExpired_expire]
    · have hq2 : pendingExpired now q.2 = false := by
        by_contra hne
        have hq3 : pendingExpired now q.2 = true := by
          cases hc : pendingExpired now q.2
          · exact absurd hc hne
          · rfl
        exact hin (mem_expiredIds.2 ⟨q.2, by simpa using hq, hq3⟩)
      simp [expireEntry, hin, hq2]
  rw [expiredIds, hfil, List.map_nil]
theorem cleanup_idem (s : Store) (now : Int) :
    cleanup_expired_swaps (cleanup_expired_swaps s now) now = cleanup_expired_swaps s now := by
  conv_lhs => rw [cleanup_expired_swaps, expiredIds_cleanup]
  rfl
theorem lookupSwap_eq_pair (s : Store) (id : String) :
    lookupSwap s id = (lookupPair s id).map Prod.snd := by
  induction s with
  | nil => rfl
  | cons p rest ih =>
    obtain ⟨k, v⟩ := p
    by_cases hk : k = id <;> simp [lookupSwap, lookupPair, hk, ih]
theorem lookupPair_fst {s : Store} {id : String} {p : String × SwapOrder}
    (h : lookupPair s id = some p) : p.1 = id := by
  induction s with
  | nil => simp [lookupPair] at h
  | cons q rest ih =>
    by_cases hq : q.1 = id
    · simp [lookupPair, hq] at h
      rw [← h]
      exact hq
    · simp [lookupPair, hq] at h
      exact ih h
theorem lookupPair_mem {s : Store} {id : String} {p : String × SwapOrder}
    (h : lookupPair s id = some p) : p ∈ s := by
  induction s with
  | nil => simp [lookupPair] at h
  | cons q rest ih =>
    by_cases hq : q.1 = id
    · simp [lookupPair, hq] at h
      simp [← h]
    · simp [lookupPair, hq] at h
      exact List.mem_cons_of_mem _ (ih h)
theorem lookupPair_map (f : String × SwapOrder → String × SwapOrder)
    (hf : ∀ p, (f p).1 = p.1) (s : Store) (id : String) :
    lookupPair (s.map f) id = (lookupPair s id).map f := by
  induction s with
  | nil => rfl
  | cons p rest ih =>
    by_cases hp : p.1 = id
    · simp [lookupPair, hf, hp]
    · simp [lookupPair, hf, hp, ih]
theorem lookup_cleanup {s : Store} (hu : keysUnique s) {id : String} {sw : SwapOrder}
    (h : lookupSwap s id = some sw) (now : Int) :
    lookupSwap (cleanup_expired_swaps s now) id =
      some (if pendingExpired now sw then { sw with status := "expired" } else sw) := by
  rw [cleanup_eq_map, lookupSwap_eq_pair, lookupPair_map _ (expireEntry_fst _)]
  rw [lookupSwap_eq_pair] at h
  rcases hp : lookupPair s id with _ | p
  · rw [hp] at h
    simp at h
  · rw [hp] at h
    simp only [Option.map_some'] at h ⊢
    have hfst : p.1 = id := lookupPair_fst hp
    have hsnd : p.2 = sw := by simpa using h
    have hiff : p.1 ∈ expiredIds now s ↔ pendingExpired now sw = true := by
      constructor
      · intro hin
        rcases mem_expiredIds.1 hin with ⟨w, hwmem, hwpred⟩
        have : lookupSwap s p.1 = some w := lookupSwap_of_mem hu hwmem
        rw [hfst, lookupSwap_eq_pair, hp] at this
        simp only [Option.map_some', Option.some.injEq] at this
        rw [← hsnd, this]
        exact hwpred
      · intro hpred
        refine mem_expiredIds.2 ⟨sw, ?_, hpred⟩
        have hpe : p = (p.1, sw) := by rw [← hsnd]
        rw [← hpe]
        exact lookupPair_mem hp
    by_cases hin : p.1 ∈ expiredIds now s
    · have := hiff.1 hin
      simp [expireEntry, hin, hsnd, this]
    · have hf : pendingExpired now sw = false := by
        cases hc : pendingExpired now sw
        · rfl
        · exact absurd (hiff.2 hc) hin
      simp [expireEntry, hin, hsnd, hf]
/-! ## Hex round-trip lemmas -/
theorem hexDigitVal_hexDigitChar_fin :
    ∀ n : Fin 16, hexDigitVal (hexDigitChar n.val) = some n.val := by decide
theorem hexDigitVal_hexDigitChar {n : Nat} (h : n < 16) :
    hexDigitVal (hexDigitChar n) = some n :=
  hexDigitVal_hexDigitChar_fin ⟨n, h⟩
theorem hexDecodeChars_hexEncodeChars {bs : List Nat} (hb : ∀ b ∈ bs, b < 256) :
    hexDecodeChars (hexEncodeChars bs) = some bs := by
  induction bs with
  | nil => rfl
  | cons b rest ih =>
    have hb1 : b < 256 := hb b (List.mem_cons_self _ _)
    have h1 : b / 16 % 16 < 16 := Nat.mod_lt _ (by decide)
    have h2 : b % 16 < 16 := Nat.mod_lt _ (by decide)
    have hrest : hexDecodeChars (hexEncodeChars rest) = some rest :=
      ih (fun x hx => hb x (List.mem_cons_of_mem _ hx))
    simp only [hexEncodeChars, hexDecodeChars, hexDigitVal_hexDigitChar h1,
      hexDigitVal_hexDigitChar h2, hrest]
    have harith : b / 16 % 16 * 16 + b % 16 = b := by omega
    rw [harith]
theorem hexDecode_hexEncode {bs : List Nat} (hb : ∀ b ∈ bs, b < 256) :
    hexDecode (hexEncode bs) = some bs :=
  hexDecodeChars_hexEncodeChars hb
theorem hexEncodeChars_length (bs : List Nat) :
    (hexEncodeChars bs).length = 2 * bs.length := by
  induction bs with
  | nil => rfl
  | cons b rest ih =>
    rw [hexEncodeChars]
    simp only [List.length_cons, ih]
    omega
theorem strBytes_hexEncode_length (bs : List Nat) :
    (strBytes (hexEncode bs)).length = 2 * bs.length := by
  show ((hexEncodeChars bs).map Char.toNat).length = 2 * bs.length
  rw [List.length_map]
  exact hexEncodeChars_length bs
/-! ## Branch lemmas for execute_swap -/
theorem execute_notfound (s : Store) (id : String) (now : Int)
    (resp : Except String PayResponse) (h : lookupSwap s id = none) :
    execute_swap s id now resp = (Except.error ("Swap " ++ id ++ " not found"), s) := by
  simp [execute_swap, h]
theorem execute_wrongstate {s : Store} {id : String} {sw : SwapOrder} (now : Int)
    (resp : Except String PayResponse) (h : lookupSwap s id = some sw)
    (h1 : sw.status ≠ "executing") :
    execute_swap s id now resp =
      (Except.error ("Swap " ++ id ++ " is not in executable state"), s) := by
  simp only [execute_swap, h]
  rw [if_pos h1]
theorem execute_expired {s : Store} {id : String} {sw : SwapOrder} {now : Int}
    (resp : Except String PayResponse) (h : lookupSwap s id = some sw)
    (h1 : sw.status = "executing") (h2 : sw.expiry_time < now) :
    execute_swap s id now resp =
      (Except.error ("Swap " ++ id ++ " has expired"),
       setSwap s id { sw with status := "expired" }) := by
  simp only [execute_swap, h]
  rw [if_neg (fun hh => hh h1), if_pos h2]
theorem execute_payfail_exc {s : Store} {id : String} {sw : SwapOrder} {now : Int}
    (h : lookupSwap s id = some sw) (h1 : sw.status = "executing")
    (h2 : ¬ sw.expiry_time < now) (e : String) :
    execute_swap s id now (Except.error e) =
      (Except.ok false, setSwap s id { sw with status := "failed" }) := by
  simp only [execute_swap, h]
  rw [if_neg (fun hh => hh h1), if_neg h2]
theorem execute_payfail {s : Store} {id : String} {sw : SwapOrder} {now : Int}
    (h : lookupSwap s id = some sw) (h1 : sw.status = "executing")
    (h2 : ¬ sw.expiry_time < now) (r : PayResponse)
    (h3 : pyTruthyStr r.payment_error = true) :
    execute_swap s id now (Except.ok r) =
      (Except.ok false, setSwap s id { sw with status := "failed" }) := by
  simp only [execute_swap, h]
  rw [if_neg (fun hh => hh h1), if_neg h2]
  simp [h3]
theorem execute_paysuccess {s : Store} {id : String} {sw : SwapOrder} {now : Int}
    (h : lookupSwap s id = some sw) (h1 : sw.status = "executing")
    (h2 : ¬ sw.expiry_time < now) (r : PayResponse)
    (h3 : pyTruthyStr r.payment_error = false) :
    execute_swap s id now (Except.ok r) =
      (Except.ok true, setSwap s id { sw with status := "completed" }) := by
  simp only [execute_swap, h]
  rw [if_neg (fun hh => hh h1), if_neg h2]
  simp [h3]
theorem execute_store_shape (s : Store) (eid : String) (now : Int)
    (resp : Except String PayResponse) :
    (execute_swap s eid now resp).2 = s ∨
      ∃ sw2, (execute_swap s eid now resp).2 = setSwap s eid sw2 := by
  rcases hle : lookupSwap s eid with _ | sw2
  · left
    rw [execute_notfound s eid now resp hle]
  · by_cases h1 : sw2.status = "executing"
    · by_cases h2 : sw2.expiry_time < now
      · right
        exact ⟨_, by rw [execute_expired resp hle h1 h2]⟩
      · cases resp with
        | error e => right; exact ⟨_, by rw [execute_payfail_exc hle h1 h2 e]⟩
        | ok r =>
          cases h3 : pyTruthyStr r.payment_error
          · right; exact ⟨_, by rw [execute_paysuccess hle h1 h2 r h3]⟩
          · right; exact ⟨_, by rw [execute_payfail hle h1 h2 r h3]⟩
    · left
      rw [execute_wrongstate now resp hle h1]
/-! ## Uniqueness of keys is preserved by every operation -/
theorem setSwap_mem_cases (s : Store) (id : String) (sw : SwapOrder) :
    ∀ q ∈ setSwap s id sw, q.1 = id ∨ q ∈ s := by
  induction s with
  | nil =>
    intro q hq
    rw [setSwap] at hq
    rcases List.mem_singleton.1 hq with rfl
    exact Or.inl rfl
  | cons p rest ih =>
    obtain ⟨k, v⟩ := p
    intro q hq
    rw [setSwap] at hq
    by_cases hk : k = id
    · rw [if_pos hk] at hq
      rcases List.mem_cons.1 hq with rfl | hm
      · exact Or.inl rfl
      · exact Or.inr (List.mem_cons_of_mem _ hm)
    · rw [if_neg hk] at hq
      rcases List.mem_cons.1 hq with rfl | hm
      · exact Or.inr (List.mem_cons_self _ _)
      · rcases ih q hm with h1 | h2
        · exact Or.inl h1
        · exact Or.inr (List.mem_cons_of_mem _ h2)
theorem keysUnique_setSwap {s : Store} (hu : keysUnique s) (id : String) (sw : SwapOrder) :
    keysUnique (setSwap s id sw) := by
  induction s with
  | nil => simp [setSwap, keysUnique]
  | cons p rest ih =>
    obtain ⟨k, v⟩ := p
    rw [keysUnique, List.pairwise_cons] at hu
    rw [setSwap]
    by_cases hk : k = id
    · rw [if_pos hk]
      rw [keysUnique, List.pairwise_cons]
      refine ⟨fun q hq => ?_, hu.2⟩
      rw [show ((id, sw) : String × SwapOrder).1 = id from rfl, ← hk]
      exact hu.1 q hq
    · rw [if_neg hk]
      rw [keysUnique, List.pairwise_cons]
      constructor
      · intro q hq
        rcases setSwap_mem_cases rest id sw q hq with h1 | h2
        · rw [show ((k, v) : String × SwapOrder).1 = k from rfl, h1]
          exact hk
        · exact hu.1 q h2
      · exact ih hu.2
theorem keysUnique_mapEntries {s : Store} (hu : keysUnique s)
    (f : String × SwapOrder → String × SwapOrder) (hf : ∀ p, (f p).1 = p.1) :
    keysUnique (s.map f) := by
  rw [keysUnique, List.pairwise_map]
  exact hu.imp (fun {a b} h => by rw [hf a, hf b]; exact h)
theorem keysUnique_cleanup {s : Store} (hu : keysUnique s) (now : Int) :
    keysUnique (cleanup_expired_swaps s now) := by
  rw [cleanup_eq_map]
  exact keysUnique_mapEntries hu _ (expireEntry_fst _)
theorem keysUnique_applyOp (op : SwapOp) {s : Store} (hu : keysUnique s) :
    keysUnique (applyOp op s) := by
  cases op with
  | create nodes f t a m now e r4 inv =>
    by_cases hf : f ∈ nodes
    · by_cases ht : t ∈ nodes
      · simp only [applyOp, create_swap, if_pos hf, if_pos ht]
        exact keysUnique_setSwap hu _ _
      · simp only [applyOp, create_swap, if_pos hf, if_neg ht]
        exact hu
    · simp only [applyOp, create_swap, if_neg hf]
      exact hu
  | execute eid now resp =>
    rcases execute_store_shape s eid now resp with hs | ⟨sw2, hs⟩
    · simp only [applyOp]
      rw [hs]
      exact hu
    · simp only [applyOp]
      rw [hs]
      exact keysUnique_setSwap hu _ _
  | sweep now =>
    simp only [applyOp]
    exact keysUnique_cleanup hu now
/-! ## Status-machine lemmas -/
theorem not_isTerminal_executing : ¬ isTerminal "executing" := by
  intro ht
  rw [isTerminal] at ht
  rcases ht with h | h | h <;> exact absurd h (by decide)
theorem not_isTerminal_pending : ¬ isTerminal "pending" := by
  intro ht
  rw [isTerminal] at ht
  rcases ht with h | h | h <;> exact absurd h (by decide)
theorem statusEdge_trans {a b c : String} (h1 : statusEdge a b) (h2 : statusEdge b c) :
    statusEdge a c := by
  have hb : b = "executing" := by
    rcases h2 with ⟨hb2, _⟩ | ⟨hb2, _⟩
    · exfalso
      rcases h1 with ⟨_, hb1⟩ | ⟨_, hb1⟩
      · rcases hb1 with rfl | rfl | rfl | rfl <;> exact absurd hb2 (by decide)
      · rcases hb1 with rfl | rfl | rfl <;> exact absurd hb2 (by decide)
    · exact hb2
  subst hb
  have ha : a = "pending" := by
    rcases h1 with ⟨ha1, _⟩ | ⟨_, hb1⟩
    · exact ha1
    · exfalso
      rcases hb1 with hx | hx | hx <;> exact absurd hx (by decide)
  subst ha
  rcases h2 with ⟨hb2, _⟩ | ⟨_, hc⟩
  · exact absurd hb2 (by decide)
  · exact Or.inl ⟨rfl, Or.inr hc⟩
/-- The effect of any single operation on one stored swap's record:
it stays, and its status either stays or moves along an edge of the
chain; a terminal record is untouched. -/
theorem applyOp_lookup_status (op : SwapOp) {s : Store} (hu : keysUnique s)
    {id : String} {sw : SwapOrder} (h : lookupSwap s id = some sw)
    (hfr : createFresh op s) :
    ∃ sw', lookupSwap (applyOp op s) id = some sw' ∧
      (sw' = sw ∨ statusEdge sw.status sw'.status) ∧
      (isTerminal sw.status → sw' = sw) := by
  cases op with
  | create nodes f t a m now e r4 inv =>
    by_cases hf : f ∈ nodes
    · by_cases ht : t ∈ nodes
      · have hfresh : lookupSwap s (swapIdString now r4) = none := hfr
        have hne : id ≠ swapIdString now r4 := by
          intro hh
          rw [hh, hfresh] at h
          exact Option.noConfusion h
        refine ⟨sw, ?_, Or.inl rfl, fun _ => rfl⟩
        simp only [applyOp, create_swap, if_pos hf, if_pos ht]
        rw [lookup_setSwap_ne _ _ _ _ hne]
        exact h
      · refine ⟨sw, ?_, Or.inl rfl, fun _ => rfl⟩
        simp only [applyOp, create_swap, if_pos hf, if_neg ht]
        exact h
    · refine ⟨sw, ?_, Or.inl rfl, fun _ => rfl⟩
      simp only [applyOp, create_swap, if_neg hf]
      exact h
  | execute eid now resp =>
    by_cases heid : eid = id
    · subst heid
      by_cases h1 : sw.status = "executing"
      · have hnt : ¬ isTerminal sw.status := by rw [h1]; exact not_isTerminal_executing
        by_cases h2 : sw.expiry_time < now
        · refine ⟨{ sw with status := "expired" }, ?_, ?_, fun ht => absurd ht hnt⟩
          · simp only [applyOp]
            rw [execute_expired resp h h1 h2]
            exact lookup_setSwap_self _ _ _
          · exact Or.inr (Or.inr ⟨h1, Or.inr (Or.inr rfl)⟩)
        · cases resp with
          | error e =>
            refine ⟨{ sw with status := "failed" }, ?_, ?_, fun ht => absurd ht hnt⟩
            · simp only [applyOp]
              rw [execute_payfail_exc h h1 h2 e]
              exact lookup_setSwap_self _ _ _
            · exact Or.inr (Or.inr ⟨h1, Or.inr (Or.inl rfl)⟩)
          | ok r =>
            cases h3 : pyTruthyStr r.payment_error
            · refine ⟨{ sw with status := "completed" }, ?_, ?_, fun ht => absurd ht hnt⟩
              · simp only [applyOp]
                rw [execute_paysuccess h h1 h2 r h3]
                exact lookup_setSwap_self _ _ _
              · exact Or.inr (Or.inr ⟨h1, Or.inl rfl⟩)
            · refine ⟨{ sw with status := "failed" }, ?_, ?_, fun ht => absurd ht hnt⟩
              · simp only [applyOp]
                rw [execute_payfail h h1 h2 r h3]
                exact lookup_setSwap_self _ _ _
              · exact Or.inr (Or.inr ⟨h1, Or.inr (Or.inl rfl)⟩)
      · refine ⟨sw, ?_, Or.inl rfl, fun _ => rfl⟩
        simp only [applyOp]
        rw [execute_wrongstate now resp h h1]
        exact h
    · have hne : id ≠ eid := fun hh => heid hh.symm
      rcases execute_store_shape s eid now resp with hs | ⟨sw2, hs⟩
      · refine ⟨sw, ?_, Or.inl rfl, fun _ => rfl⟩
        simp only [applyOp]
        rw [hs]
        exact h
      · refine ⟨sw, ?_, Or.inl rfl, fun _ => rfl⟩
        simp only [applyOp]
        rw [hs, lookup_setSwap_ne _ _ _ _ hne]
        exact h
  | sweep now =>
    have hlc := lookup_cleanup hu h now
    cases hc : pendingExpired now sw
    · rw [hc] at hlc
      simp only [Bool.false_eq_true, if_false] at hlc
      exact ⟨sw, by simpa only [applyOp] using hlc, Or.inl rfl, fun _ => rfl⟩
    · rw [hc] at hlc
      simp only [if_true] at hlc
      have hpend : sw.status = "pending" := ((pendingExpired_iff now sw).1 hc).2
      refine ⟨{ sw with status := "expired" }, by simpa only [applyOp] using hlc, ?_, ?_⟩
      · exact Or.inr (Or.inl ⟨hpend, Or.inr (Or.inr (Or.inr rfl))⟩)
      · intro ht
        rw [hpend] at ht
        exact absurd ht not_isTerminal_pending
theorem create_swap_ok {nodes : List String} {f t : String} (s : Store)
    (a m now : Int) (e : List Nat) (r4 : String) (inv : Except String InvoiceResponse)
    (hf : f ∈ nodes) (ht : t ∈ nodes) :
    create_swap nodes s f t a m now e r4 inv =
      Except.ok (createdSwap f t a m now e r4 inv,
        setSwap s (swapIdString now r4) (createdSwap f t a m now e r4 inv)) := by
  rw [create_swap, if_pos hf, if_pos ht]
theorem createdSwap_swap_id (f t : String) (a m now : Int) (e : List Nat) (r4 : String)
    (inv : Except String InvoiceResponse) :
    (createdSwap f t a m now e r4 inv).swap_id = swapIdString now r4 := by
  cases inv <;> rfl
theorem createdSwap_expiry (f t : String) (a m now : Int) (e : List Nat) (r4 : String)
    (inv : Except String InvoiceResponse) :
    (createdSwap f t a m now e r4 inv).expiry_time = now + m * 60 := by
  cases inv <;> rfl
theorem createdSwap_created (f t : String) (a m now : Int) (e : List Nat) (r4 : String)
    (inv : Except String InvoiceResponse) :
    (createdSwap f t a m now e r4 inv).created_at = now := by
  cases inv <;> rfl
/-! ## Claim theorems -/
/-- C1 (counterexample): the claim reads `hash_lock` as the SHA-256 digest
of the 32-byte secret value; for the 32 zero bytes the generator's
`hash_lock` is not that digest (it hashes the 64-character hex string's
ASCII bytes instead). -/
theorem C1_counterexample :
    (generate_htlc_secret zeroEntropy).2 ≠ sha256Hex zeroEntropy := by decide
/-- C1 (amended): for every 32-byte entropy draw, `generate_htlc_secret`
returns the 64-character lowercase-hex string of those bytes as the
secret (decoding back to exactly those bytes), and `hash_lock` is the
SHA-256 hexdigest of that string's ASCII encoding. -/
theorem C1_hash_lock_of_hex_string (e : List Nat) (hlen : e.length = 32)
    (hb : ∀ b ∈ e, b < 256) :
    (generate_htlc_secret e).1 = hexEncode e ∧
    ((generate_htlc_secret e).1).length = 64 ∧
    hexDecode (generate_htlc_secret e).1 = some e ∧
    (generate_htlc_secret e).2 = sha256Hex (strBytes (generate_htlc_secret e).1) := by
  refine ⟨rfl, ?_, hexDecode_hexEncode hb, rfl⟩
  have h1 : ((generate_htlc_secret e).1).length = (hexEncodeChars e).length := rfl
  rw [h1, hexEncodeChars_length, hlen]
/-- C1 witness: the amended statement evaluated at the concrete entropy
bytes 0..31. -/
theorem C1_witness :
    (generate_htlc_secret sampleEntropy).1 = hexEncode sampleEntropy ∧
    ((generate_htlc_secret sampleEntropy).1).length = 64 ∧
    hexDecode (generate_htlc_secret sampleEntropy).1 = some sampleEntropy ∧
    (generate_htlc_secret sampleEntropy).2 =
      sha256Hex (strBytes (generate_htlc_secret sampleEntropy).1) :=
  C1_hash_lock_of_hex_string sampleEntropy (by decide) (by decide)
/-- C3: executing a stored swap whose status is `executing` and whose
`expiry_time` is before `now` reports the expiry `ValueError`, sets the
status to `expired` in the store, and the outcome is identical for every
possible payment-layer response (the payment call is never attempted). -/
theorem C3_execute_expired_rejects (s : Store) (id : String) (sw : SwapOrder)
    (now : Int) (resp : Except String PayResponse)
    (h : lookupSwap s id = some sw) (h1 : sw.status = "executing")
    (h2 : sw.expiry_time < now) :
    (execute_swap s id now resp).1 = Except.error ("Swap " ++ id ++ " has expired") ∧
    lookupSwap (execute_swap s id now resp).2 id = some { sw with status := "expired" } ∧
    ∀ resp', execute_swap s id now resp = execute_swap s id now resp' := by
  refine ⟨?_, ?_, ?_⟩
  · rw [execute_expired resp h h1 h2]
  · rw [execute_expired resp h h1 h2]
    exact lookup_setSwap_self _ _ _
  · intro resp'
    rw [execute_expired resp h h1 h2, execute_expired resp' h h1 h2]
/-- C3 witness: the expiry rejection evaluated on a concrete store at
`now = 200` past the swap's expiry `100`. -/
theorem C3_witness :
    (execute_swap [("swap_10_aa", c3Swap)] "swap_10_aa" 200
        (Except.ok { payment_error := some "unreachable", payment_preimage := none })).1 =
      Except.error ("Swap " ++ "swap_10_aa" ++ " has expired") ∧
    lookupSwap (execute_swap [("swap_10_aa", c3Swap)] "swap_10_aa" 200
        (Except.ok { payment_error := some "unreachable", payment_preimage := none })).2
        "swap_10_aa" = some { c3Swap with status := "expired" } ∧
    ∀ resp', execute_swap [("swap_10_aa", c3Swap)] "swap_10_aa" 200
        (Except.ok { payment_error := some "unreachable", payment_preimage := none }) =
      execute_swap [("swap_10_aa", c3Swap)] "swap_10_aa" 200 resp' :=
  C3_execute_expired_rejects _ _ c3Swap _ _ rfl rfl (by decide)
/-- C5: with known node aliases, `create_swap` returns the SwapOrder
(never raises): on invoice success the swap is `executing` with
`invoice`/`payment_hash` recorded from the response, on invoice failure it
is `failed` with neither recorded; in both cases the swap is retained in
the returned store under its `swap_id`. -/
theorem C5_create_returns_swap (nodes : List String) (s : Store) (f t : String)
    (a m now : Int) (e : List Nat) (r4 : String) (inv : Except String InvoiceResponse)
    (hf : f ∈ nodes) (ht : t ∈ nodes) :
    ∃ sw s', create_swap nodes s f t a m now e r4 inv = Except.ok (sw, s') ∧
      lookupSwap s' sw.swap_id = some sw ∧
      (∀ resp, inv = Except.ok resp →
        sw.status = "executing" ∧ sw.invoice = resp.payment_request ∧
        sw.payment_hash = resp.r_hash) ∧
      (∀ msg, inv = Except.error msg →
        sw.status = "failed" ∧ sw.invoice = none ∧ sw.payment_hash = none) := by
  refine ⟨createdSwap f t a m now e r4 inv, _, create_swap_ok s a m now e r4 inv hf ht,
    ?_, ?_, ?_⟩
  · rw [createdSwap_swap_id]
    exact lookup_setSwap_self _ _ _
  · intro resp hresp
    subst hresp
    exact ⟨rfl, rfl, rfl⟩
  · intro msg hmsg
    subst hmsg
    exact ⟨rfl, rfl, rfl⟩
/-- C5 witness: creation evaluated concretely for both the invoice-success
and the invoice-failure outcome. -/
theorem C5_witness :
    (∃ sw s', create_swap ["alice", "carol"] [] "alice" "carol" 5000 30 1000
        zeroEntropy "ab12" c8Inv = Except.ok (sw, s') ∧
      lookupSwap s' sw.swap_id = some sw ∧
      (∀ resp, c8Inv = Except.ok resp →
        sw.status = "executing" ∧ sw.invoice = resp.payment_request ∧
        sw.payment_hash = resp.r_hash) ∧
      (∀ msg, c8Inv = Except.error msg →
        sw.status = "failed" ∧ sw.invoice = none ∧ sw.payment_hash = none)) :=
  C5_create_returns_swap ["alice", "carol"] [] "alice" "carol" 5000 30 1000
    zeroEntropy "ab12" c8Inv (by decide) (by decide)
/-- C7: the expiry sweep is idempotent for a fixed clock, and it acts
pointwise on a well-formed store: exactly the pending swaps whose expiry
has passed are transitioned to `expired`, every other record is kept
unchanged. -/
theorem C7_sweep_exact_and_idempotent :
    (∀ (s : Store) (now : Int),
      cleanup_expired_swaps (cleanup_expired_swaps s now) now = cleanup_expired_swaps s now) ∧
    (∀ (s : Store) (now : Int) (id : String) (sw : SwapOrder), keysUnique s →
      lookupSwap s id = some sw →
      lookupSwap (cleanup_expired_swaps s now) id =
        some (if pendingExpired now sw then { sw with status := "expired" } else sw)) :=
  ⟨cleanup_idem, fun _ now _ _ hu h => lookup_cleanup hu h now⟩
/-- C7 witness: the pointwise sweep rule evaluated on a concrete one-entry
store whose pending swap has expired at `now = 100`. -/
theorem C7_witness :
    lookupSwap (cleanup_expired_swaps [("swap_10_bb", c7Swap)] 100) "swap_10_bb" =
      some (if pendingExpired 100 c7Swap then { c7Swap with status := "expired" }
            else c7Swap) :=
  C7_sweep_exact_and_idempotent.2 [("swap_10_bb", c7Swap)] 100 "swap_10_bb" c7Swap
    (by unfold keysUnique; decide) rfl
/-- C8 (counterexample): a swap created with `expiry_minutes = 0` has
`expiry_time = created_at`, refuting the claim's `expiry_time > created_at`
for every create call. -/
theorem C8_counterexample :
    create_swap ["alice", "carol"] [] "alice" "carol" 5000 0 1000 zeroEntropy "ab12" c8Inv =
      Except.ok (createdSwap "alice" "carol" 5000 0 1000 zeroEntropy "ab12" c8Inv,
        setSwap [] (swapIdString 1000 "ab12")
          (createdSwap "alice" "carol" 5000 0 1000 zeroEntropy "ab12" c8Inv)) ∧
    ¬ ((createdSwap "alice" "carol" 5000 0 1000 zeroEntropy "ab12" c8Inv).created_at <
        (createdSwap "alice" "carol" 5000 0 1000 zeroEntropy "ab12" c8Inv).expiry_time) :=
  ⟨create_swap_ok [] 5000 0 1000 zeroEntropy "ab12" c8Inv (by decide) (by decide),
   by decide⟩
/-- C8 (amended): every swap returned by `create_swap` has
`expiry_time = created_at + expiry_minutes * 60`, hence
`expiry_time > created_at` whenever `expiry_minutes` is positive. -/
theorem C8_expiry_from_creation (nodes : List String) (s : Store) (f t : String)
    (a m now : Int) (e : List Nat) (r4 : String) (inv : Except String InvoiceResponse)
    (sw : SwapOrder) (s' : Store)
    (h : create_swap nodes s f t a m now e r4 inv = Except.ok (sw, s')) :
    sw.expiry_time = sw.created_at + m * 60 ∧
    (0 < m → sw.created_at < sw.expiry_time) := by
  by_cases hf : f ∈ nodes
  · by_cases ht : t ∈ nodes
    · rw [create_swap_ok s a m now e r4 inv hf ht] at h
      injection h with h3
      injection h3 with h4 h5
      subst h4
      rw [createdSwap_expiry, createdSwap_created]
      refine ⟨rfl, fun hm => ?_⟩
      omega
    · rw [create_swap, if_pos hf, if_neg ht] at h
      simp at h
  · rw [create_swap, if_neg hf] at h
    simp at h
/-- C8 witness: the amended statement evaluated for a concrete creation
with the default 60-minute expiry. -/
theorem C8_witness :
    (createdSwap "alice" "carol" 5000 60 1000 zeroEntropy "ab12" c8Inv).expiry_time =
      (createdSwap "alice" "carol" 5000 60 1000 zeroEntropy "ab12" c8Inv).created_at +
        60 * 60 ∧
    (0 < (60 : Int) →
      (createdSwap "alice" "carol" 5000 60 1000 zeroEntropy "ab12" c8Inv).created_at <
        (createdSwap "alice" "carol" 5000 60 1000 zeroEntropy "ab12" c8Inv).expiry_time) :=
  C8_expiry_from_creation ["alice", "carol"] [] "alice" "carol" 5000 60 1000
    zeroEntropy "ab12" c8Inv _ _
    (create_swap_ok [] 5000 60 1000 zeroEntropy "ab12" c8Inv (by decide) (by decide))
/-- C9: the stored `hash_lock` is the SHA-256 hexdigest of the ASCII bytes
of the 64-character hex secret string, while the invoice `r_preimage`
carries (base64-wrapped) the 32 raw bytes decoded from that string; the
two hashed messages always differ (64 ASCII bytes vs 32 raw bytes), and at
the concrete entropy 0..31 the two digests differ as the claim states. -/
theorem C9_hash_vs_preimage_domains :
    (∀ e : List Nat, e.length = 32 → (∀ b ∈ e, b < 256) →
      hexDecode (generate_htlc_secret e).1 = some e ∧
      invoiceRPreimage (generate_htlc_secret e).1 = base64Encode e ∧
      (generate_htlc_secret e).2 = sha256Hex (strBytes (generate_htlc_secret e).1) ∧
      strBytes (generate_htlc_secret e).1 ≠ e) ∧
    sha256Hex sampleEntropy ≠ (generate_htlc_secret sampleEntropy).2 := by
  constructor
  · intro e hlen hb
    refine ⟨hexDecode_hexEncode hb, ?_, rfl, ?_⟩
    · show base64Encode ((hexDecode (hexEncode e)).getD []) = base64Encode e
      rw [hexDecode_hexEncode hb]
      rfl
    · intro hcontra
      have hl := congrArg List.length hcontra
      have h2 : (strBytes (generate_htlc_secret e).1).length = 2 * e.length :=
        strBytes_hexEncode_length e
      omega
  · decide
/-- C9 witness: the universal part evaluated at the concrete 32 zero
bytes. -/
theorem C9_witness :
    hexDecode (generate_htlc_secret zeroEntropy).1 = some zeroEntropy ∧
    invoiceRPreimage (generate_htlc_secret zeroEntropy).1 = base64Encode zeroEntropy ∧
    (generate_htlc_secret zeroEntropy).2 =
      sha256Hex (strBytes (generate_htlc_secret zeroEntropy).1) ∧
    strBytes (generate_htlc_secret zeroEntropy).1 ≠ zeroEntropy :=
  C9_hash_vs_preimage_domains.1 zeroEntropy (by decide) (by decide)
/-- C10: for a swap id absent from the store, `get_swap_status` returns
`None` without raising, while `execute_swap` raises the not-found
`ValueError` and leaves the store exactly as it was. -/
theorem C10_unknown_swap_id (s : Store) (id : String) (now : Int)
    (resp : Except String PayResponse) (h : lookupSwap s id = none) :
    get_swap_status s id = none ∧
    (execute_swap s id now resp).1 = Except.error ("Swap " ++ id ++ " not found") ∧
    (execute_swap s id now resp).2 = s := by
  refine ⟨h, ?_, ?_⟩
  · rw [execute_notfound s id now resp h]
  · rw [execute_notfound s id now resp h]
/-- C10 witness: the unknown-id behaviour evaluated on the empty store. -/
theorem C10_witness :
    get_swap_status [] "nope" = none ∧
    (execute_swap [] "nope" 0 (Except.ok emptyPay)).1 =
      Except.error ("Swap " ++ "nope" ++ " not found") ∧
    (execute_swap [] "nope" 0 (Except.ok emptyPay)).2 = [] :=
  C10_unknown_swap_id [] "nope" 0 (Except.ok emptyPay) rfl
/-- C2: along any sequence of orchestrator operations (create with a fresh
id, execute, expire-sweep) over a well-formed store, a stored swap's
record persists and its status either stays put or moves along the chain
pending → executing → {completed, failed, expired}; once the status is
terminal the record is never changed again. -/
theorem C2_status_monotone (ops : List SwapOp) (s : Store) (id : String) (sw : SwapOrder)
    (hu : keysUnique s) (h : lookupSwap s id = some sw) (hfr : freshAlong ops s) :
    ∃ sw', lookupSwap (applyOps ops s) id = some sw' ∧
      (sw'.status = sw.status ∨ statusEdge sw.status sw'.status) ∧
      (isTerminal sw.status → sw' = sw) := by
  induction ops generalizing s sw with
  | nil => exact ⟨sw, h, Or.inl rfl, fun _ => rfl⟩
  | cons op ops ih =>
    obtain ⟨hf1, hf2⟩ := hfr
    obtain ⟨sw1, h1, e1, t1⟩ := applyOp_lookup_status op hu h hf1
    obtain ⟨sw', h', e', t'⟩ := ih (applyOp op s) sw1 (keysUnique_applyOp op hu) h1 hf2
    refine ⟨sw', h', ?_, ?_⟩
    · rcases e1 with rfl | he1
      · exact e'
      · rcases e' with hst | he'
        · right
          rw [hst]
          exact he1
        · right
          exact statusEdge_trans he1 he'
    · intro ht
      obtain rfl := t1 ht
      exact t' ht
/-- C2 witness: a completed swap is untouched by a sweep followed by an
execute attempt, both after its expiry time. -/
theorem C2_witness :
    ∃ sw', lookupSwap (applyOps c2Ops c2Store) "swap_1_cc" = some sw' ∧
      (sw'.status = c2Swap.status ∨ statusEdge c2Swap.status sw'.status) ∧
      (isTerminal c2Swap.status → sw' = c2Swap) :=
  C2_status_monotone c2Ops c2Store "swap_1_cc" c2Swap (by unfold keysUnique; decide) rfl
    ⟨trivial, trivial, trivial⟩
/-- C4 (counterexample): a successful payment whose revealed preimage is
exactly the stored secret's decoded bytes completes the swap, but the
stored `hash_lock` is not the SHA-256 digest of that decoded preimage
(it is the digest of the hex string), and no verification error is
raised — the mismatching preimage is silently accepted. -/
theorem C4_counterexample :
    (execute_swap [("swap_1000_ab12", c4Swap)] "swap_1000_ab12" 1500
        (Except.ok c4Resp)).1 = Except.ok true ∧
    lookupSwap (execute_swap [("swap_1000_ab12", c4Swap)] "swap_1000_ab12" 1500
        (Except.ok c4Resp)).2 "swap_1000_ab12" =
      some { c4Swap with status := "completed" } ∧
    sha256Hex sampleEntropy ≠ c4Swap.hash_lock := by
  have hl : lookupSwap [("swap_1000_ab12", c4Swap)] "swap_1000_ab12" = some c4Swap := rfl
  refine ⟨?_, ?_, by decide⟩
  · rw [execute_paysuccess hl rfl (by decide) c4Resp rfl]
  · rw [execute_paysuccess hl rfl (by decide) c4Resp rfl]
    exact lookup_setSwap_self _ _ _
/-- C4 (amended): a successful payment (no truthy `payment_error`) always
completes an executing, unexpired swap — `execute_swap` performs no
preimage verification at all; hash verification lives only in the
standalone payment script's `verify_htlc_hash`, which hashes the raw
secret bytes and reports `verified = false` (never silently true) exactly
when the base64 digest disagrees with the expected hash. -/
theorem C4_success_completes_without_verification (s : Store) (id : String)
    (sw : SwapOrder) (now : Int) (r : PayResponse)
    (h : lookupSwap s id = some sw) (h1 : sw.status = "executing")
    (h2 : ¬ sw.expiry_time < now) (h3 : pyTruthyStr r.payment_error = false) :
    (execute_swap s id now (Except.ok r)).1 = Except.ok true ∧
    lookupSwap (execute_swap s id now (Except.ok r)).2 id =
      some { sw with status := "completed" } ∧
    (∀ sHex expected bs, hexDecode sHex = some bs →
      ((verify_htlc_hash sHex expected).verified = true ↔
        base64Encode (sha256Bytes bs) = expected)) := by
  refine ⟨?_, ?_, ?_⟩
  · rw [execute_paysuccess h h1 h2 r h3]
  · rw [execute_paysuccess h h1 h2 r h3]
    exact lookup_setSwap_self _ _ _
  · intro sHex expected bs hdec
    unfold verify_htlc_hash
    rw [hdec]
    simp
/-- C4 witness: the amended statement evaluated on the concrete executing
swap and successful payment response. -/
theorem C4_witness :
    (execute_swap [("swap_1000_ab12", c4Swap)] "swap_1000_ab12" 1500
        (Except.ok c4Resp)).1 = Except.ok true ∧
    lookupSwap (execute_swap [("swap_1000_ab12", c4Swap)] "swap_1000_ab12" 1500
        (Except.ok c4Resp)).2 "swap_1000_ab12" =
      some { c4Swap with status := "completed" } ∧
    (∀ sHex expected bs, hexDecode sHex = some bs →
      ((verify_htlc_hash sHex expected).verified = true ↔
        base64Encode (sha256Bytes bs) = expected)) :=
  C4_success_completes_without_verification [("swap_1000_ab12", c4Swap)]
    "swap_1000_ab12" c4Swap 1500 c4Resp rfl rfl (by decide) rfl
/-- C6 (counterexample): a payment response that contains a
`payment_error` field holding the empty string is treated as success —
the call returns `True` and the swap completes, refuting the claim for a
merely present (but falsy) error field. -/
theorem C6_counterexample :
    (execute_swap [("swap_2000_cd34", c6Swap)] "swap_2000_cd34" 2500
        (Except.ok c6Resp)).1 = Except.ok true ∧
    lookupSwap (execute_swap [("swap_2000_cd34", c6Swap)] "swap_2000_cd34" 2500
        (Except.ok c6Resp)).2 "swap_2000_cd34" =
      some { c6Swap with status := "completed" } := by
  have hl : lookupSwap [("swap_2000_cd34", c6Swap)] "swap_2000_cd34" = some c6Swap := rfl
  refine ⟨?_, ?_⟩
  · rw [execute_paysuccess hl rfl (by decide) c6Resp rfl]
  · rw [execute_paysuccess hl rfl (by decide) c6Resp rfl]
    exact lookup_setSwap_self _ _ _
/-- C6 (amended): for an executing, unexpired swap, a payment response
carrying a non-empty (truthy) `payment_error` makes `execute_swap` return
`False` without raising, and the swap's status becomes `failed`. -/
theorem C6_nonempty_payment_error_fails (s : Store) (id : String) (sw : SwapOrder)
    (now : Int) (r : PayResponse) (err : String)
    (h : lookupSwap s id = some sw) (h1 : sw.status = "executing")
    (h2 : ¬ sw.expiry_time < now) (he : r.payment_error = some err)
    (hne : err ≠ "") :
    (execute_swap s id now (Except.ok r)).1 = Except.ok false ∧
    lookupSwap (execute_swap s id now (Except.ok r)).2 id =
      some { sw with status := "failed" } := by
  have h3 : pyTruthyStr r.payment_error = true := by
    rw [he]
    simp [pyTruthyStr, hne]
  refine ⟨?_, ?_⟩
  · rw [execute_payfail h h1 h2 r h3]
  · rw [execute_payfail h h1 h2 r h3]
    exact lookup_setSwap_self _ _ _
/-- C6 witness: the amended statement evaluated on a concrete routing
failure response. -/
theorem C6_witness :
    (execute_swap [("swap_2000_cd34", c6Swap)] "swap_2000_cd34" 2500
        (Except.ok c6RespErr)).1 = Except.ok false ∧
    lookupSwap (execute_swap [("swap_2000_cd34", c6Swap)] "swap_2000_cd34" 2500
        (Except.ok c6RespErr)).2 "swap_2000_cd34" =
      some { c6Swap with status := "failed" } :=
  C6_nonempty_payment_error_fails [("swap_2000_cd34", c6Swap)] "swap_2000_cd34"
    c6Swap 2500 c6RespErr "no route" rfl rfl (by decide) rfl (by decide)
